import Mathlib

/-!
Shallow embedding of `simple-test-app` (src/main.py, src/update_utils.py):
the record store (SQLite `users` table), the update checker, the
backup/restore manager, and the update-installer sequence.

Modelling conventions:
* `os.path.join a b` with a relative second component is `a ++ "/" ++ b`.
* The filesystem visible to backup/restore is a map from path strings to
  optional file contents.  Directories are not modelled separately:
  `os.makedirs(..., exist_ok=True)` only matters through its possible
  exception, which is injected through an environment of failure flags
  (one flag per call site, modelling an exception raised by that call).
* External library primitives (`requests`, `os.walk`, `hashlib.sha256`,
  SQLite's clock) are inputs: the HTTP status and parsed JSON body are
  parameters, `os.walk`'s output sequence is a parameter, the hash is a
  function parameter, and `CURRENT_TIMESTAMP` is a strictly increasing
  counter held by the store.
-/

namespace SimpleTestApp

/-- `os.path.join` for a relative second component. -/
def joinPath (a b : String) : String := a ++ "/" ++ b

/-- `main.py` line 18: `APP_VERSION = "1.0.1"`. -/
def APP_VERSION : String := "1.0.1"

/-- `update_utils.py` line 13: `CURRENT_VERSION = "1.0.0"`
(its comment reads: `# This should match main.py`). -/
def CURRENT_VERSION : String := "1.0.0"

/-- `main.py` `Database.get_db_path` (lines 26-32):
`os.path.join(home, '.simple-test-app', 'users.db')`.
The home directory is a parameter (`os.path.expanduser("~")`). -/
def main_get_db_path (home : String) : String :=
  joinPath (joinPath home ".simple-test-app") "users.db"

/-- `update_utils.py` `get_db_path` (lines 20-27):
`os.path.join(app_dir, 'data', 'users.db')`, where `app_dir` is the
directory of the executable (frozen) or of the module file — in both
branches the same shape of result, so `app_dir` is the parameter. -/
def get_db_path (appDir : String) : String :=
  joinPath (joinPath appDir "data") "users.db"

/-- `update_utils.py` line 17: `BACKUP_DIR = os.path.join(USER_HOME, ".simple-test-app", "backup")`. -/
def BACKUP_DIR (home : String) : String :=
  joinPath (joinPath home ".simple-test-app") "backup"

/-- `update_utils.py` line 18: `DB_BACKUP_PATH = os.path.join(BACKUP_DIR, "users.db")`. -/
def DB_BACKUP_PATH (home : String) : String :=
  joinPath (BACKUP_DIR home) "users.db"

/-- The filesystem as backup/restore observes it: path to optional content. -/
structure FS where
  files : String → Option String

/-- Writing content `c` at path `p` (what `shutil.copy2 src p` does to the
destination once the source content `c` has been read). -/
def FS.write (fs : FS) (p c : String) : FS :=
  ⟨fun q => if q = p then some c else fs.files q⟩

/-- Exception injection for the backup/restore call sites: a `true` flag
means that call of `os.makedirs` / `shutil.copy2` raises, which the
enclosing `try/except` converts to a `False` return. -/
structure ExcEnv where
  mkdirBackupRaises : Bool
  copyBackupRaises : Bool
  mkdirRestoreRaises : Bool
  copyRestoreRaises : Bool

/-- The environment in which every primitive call succeeds. -/
def ExcEnv.ok : ExcEnv := ⟨false, false, false, false⟩

/-- `update_utils.py` `backup_user_data` (lines 29-45): make the backup
directory, and if the live database file exists copy it to
`DB_BACKUP_PATH`; a missing live file is success with nothing copied;
any exception yields `False`. Returns the boolean result and the
filesystem afterwards. -/
def backup_user_data (env : ExcEnv) (home appDir : String) (fs : FS) :
    Bool × FS :=
  if env.mkdirBackupRaises then (false, fs)
  else
    match fs.files (get_db_path appDir) with
    | some c =>
        if env.copyBackupRaises then (false, fs)
        else (true, fs.write (DB_BACKUP_PATH home) c)
    | none => (true, fs)

/-- `update_utils.py` `restore_user_data` (lines 47-62): if a backup file
exists, make the live file's parent directory and copy the backup over
the live path; a missing backup is success with nothing copied; any
exception yields `False`. -/
def restore_user_data (env : ExcEnv) (home appDir : String) (fs : FS) :
    Bool × FS :=
  match fs.files (DB_BACKUP_PATH home) with
  | some c =>
      if env.mkdirRestoreRaises then (false, fs)
      else if env.copyRestoreRaises then (false, fs)
      else (true, fs.write (get_db_path appDir) c)
  | none => (true, fs)

/-- A row of the `users` table (`main.py` lines 42-50): `id` is assigned by
AUTOINCREMENT, `username` is UNIQUE NOT NULL, `email` is nullable,
`created_at` defaults to CURRENT_TIMESTAMP (modelled as a counter). -/
structure UserRow where
  id : Nat
  username : String
  password_hash : String
  email : Option String
  created_at : Nat
deriving DecidableEq, Repr

/-- The record store: the `users` rows in insertion order, the next
AUTOINCREMENT id, and the clock supplying CURRENT_TIMESTAMP values
(strictly increasing across inserts). -/
structure Store where
  users : List UserRow
  nextId : Nat
  clock : Nat
deriving DecidableEq, Repr

/-- The store right after `init_database` on a fresh file: both tables
exist and `users` is empty (AUTOINCREMENT starts at 1). -/
def init_store : Store := ⟨[], 1, 0⟩

/-- Outcome of `Database.register_user` (`main.py` lines 80-102): the
`(True, ...)` success tuple, the `sqlite3.IntegrityError` branch
(`"Username already exists!"`), and the generic `sqlite3.Error` branch
(`"Database error: ..."`). -/
inductive RegResult where
  | success
  | duplicateUsername
  | storeError (msg : String)
deriving DecidableEq, Repr

/-- `Database.register_user` (`main.py` lines 80-102): one atomic INSERT of
`(username, sha256-hex password, email)`; the UNIQUE constraint on
`username` raises `IntegrityError` — returned as the duplicate error with
the store unchanged.  `hash` stands for `hashlib.sha256(...).hexdigest()`. -/
def register_user (hash : String → String) (s : Store)
    (username password email : String) : RegResult × Store :=
  if s.users.any (fun r => r.username = username) then
    (RegResult.duplicateUsername, s)
  else
    (RegResult.success,
     ⟨s.users ++ [⟨s.nextId, username, hash password, some email, s.clock⟩],
      s.nextId + 1, s.clock + 1⟩)

/-- Python's `x or ''` applied to the nullable `email` column
(`main.py` line 118): `NULL` and the empty string are falsy. -/
def pyOr (x : Option String) : String :=
  match x with
  | none => ""
  | some s => if s = "" then "" else s

/-- `ORDER BY created_at DESC`: larger timestamps first. -/
def createdDesc (a b : UserRow) : Prop := b.created_at ≤ a.created_at

instance : DecidableRel createdDesc := fun a b =>
  inferInstanceAs (Decidable (b.created_at ≤ a.created_at))

instance : IsTotal UserRow createdDesc :=
  ⟨fun a b => Nat.le_total b.created_at a.created_at⟩

instance : IsTrans UserRow createdDesc :=
  ⟨fun _ _ _ hab hbc => Nat.le_trans hbc hab⟩

/-- `Database.get_users` (`main.py` lines 104-128):
`SELECT username, email, created_at FROM users ORDER BY created_at DESC`,
each row converted to a tuple with `user['email'] or ''`. -/
def get_users (s : Store) : List (String × String × Nat) :=
  (List.insertionSort createdDesc s.users).map
    (fun r => (r.username, pyOr r.email, r.created_at))

/-- The parsed JSON of the release-metadata endpoint as
`check_for_new_version` reads it: `data.get("tag_name", "")` (absent key
modelled as `none`) and `data.get("assets", [])`. -/
structure Asset where
  name : String
  browser_download_url : String
deriving DecidableEq, Repr

structure ReleaseData where
  tag_name : Option String
  assets : List Asset
deriving DecidableEq, Repr

/-- Python's `str.lstrip('v')`: remove every leading `'v'` character. -/
def lstripV (s : String) : String :=
  String.mk (s.data.dropWhile (fun c => c = 'v'))

/-- Python's `str.endswith`, on the character lists of the strings. -/
def pyEndsWith (s suffix : String) : Bool :=
  suffix.data.isSuffixOf s.data

/-- The decision core of `check_for_new_version` (`update_utils.py` lines
64-88): on status 200 compute `latest_version = tag_name.lstrip('v')` and
offer the update (the `askyesno` prompt, carrying `latest_version`)
exactly when `latest_version` is truthy and differs from
`CURRENT_VERSION`; any other status is no offer. -/
def check_for_new_version (status : Nat) (data : ReleaseData) :
    Option String :=
  if status = 200 then
    let latest := lstripV (data.tag_name.getD "")
    if latest ≠ "" ∧ latest ≠ CURRENT_VERSION then some latest else none
  else none

/-- One entry of `os.walk`'s output as the installer loop reads it:
the directory path and its plain-file names. -/
abbrev WalkEntry := String × List String

/-- The `for root, dirs, files in os.walk(extract_dir)` loop of
`update_application` (`update_utils.py` lines 130-134): the first walk
entry whose files contain `"install.sh"` yields
`os.path.join(root, "install.sh")`; the loop breaks there. -/
def find_install_script : List WalkEntry → Option String
  | [] => none
  | (root, files) :: rest =>
      if "install.sh" ∈ files then some (joinPath root "install.sh")
      else find_install_script rest

/-- Observable events of `update_application`, in program order:
message boxes, subprocess runs, the restore call and the final
`sys.exit(0)`. -/
inductive Event where
  | errorBackup
  | errorNoPackage
  | infoDownloading
  | runTar
  | infoInstalling
  | runInstall (script : String)
  | callRestore (ok : Bool)
  | infoComplete
  | exitZero
  | errorUpdateFailed
deriving DecidableEq, Repr

/-- Environment of the update sequence: exception flags for
backup/restore primitives, whether the download raises
(`raise_for_status` or an I/O error), the `tar` exit code, `os.walk`'s
output over the extraction directory, and the install script's exit
code (`subprocess.run(..., check=True)` raises when it is nonzero). -/
structure UpdateEnv where
  exc : ExcEnv
  downloadRaises : Bool
  tarExit : Nat
  walk : List WalkEntry
  installExit : Nat

/-- `update_application` (`update_utils.py` lines 90-151): backup; find the
first `.tar.gz` asset; download; extract; locate `install.sh` by walking
the extraction tree, running it (via sudo) only when found; restore;
notify completion and `sys.exit(0)`.  Any exception between download and
install lands in the final `except` (the generic update-failed error);
`sys.exit` raises `SystemExit`, which `except Exception` does not catch.
Returns the event trace and the filesystem afterwards. -/
def update_application (env : UpdateEnv) (home appDir : String)
    (rel : ReleaseData) (fs : FS) : List Event × FS :=
  match backup_user_data env.exc home appDir fs with
  | (false, fs1) => ([Event.errorBackup], fs1)
  | (true, fs1) =>
    match rel.assets.find? (fun a => pyEndsWith a.name ".tar.gz") with
    | none => ([Event.errorNoPackage], fs1)
    | some _ =>
      if env.downloadRaises then
        ([Event.infoDownloading, Event.errorUpdateFailed], fs1)
      else if env.tarExit ≠ 0 then
        ([Event.infoDownloading, Event.runTar, Event.errorUpdateFailed], fs1)
      else
        match find_install_script env.walk with
        | some script =>
            if env.installExit ≠ 0 then
              ([Event.infoDownloading, Event.runTar, Event.infoInstalling,
                Event.runInstall script, Event.errorUpdateFailed], fs1)
            else
              match restore_user_data env.exc home appDir fs1 with
              | (rok, fs2) =>
                ([Event.infoDownloading, Event.runTar, Event.infoInstalling,
                  Event.runInstall script, Event.callRestore rok,
                  Event.infoComplete, Event.exitZero], fs2)
        | none =>
            match restore_user_data env.exc home appDir fs1 with
            | (rok, fs2) =>
              ([Event.infoDownloading, Event.runTar, Event.callRestore rok,
                Event.infoComplete, Event.exitZero], fs2)

/-! Concrete fixtures used to instantiate the theorems. -/

/-- A concrete home directory. -/
def testHome : String := "/home/user"

/-- A concrete application directory (the directory of `update_utils.py`). -/
def testAppDir : String := "/opt/simple-test-app"

/-- A filesystem holding only the updater's live database file. -/
def testFS : FS :=
  ⟨fun p => if p = get_db_path testAppDir then some "DATA" else none⟩

/-- A filesystem with no files at all. -/
def emptyFS : FS := ⟨fun _ => none⟩

/-- A release whose single asset is a `.tar.gz` package. -/
def testRel : ReleaseData :=
  ⟨some "v1.0.1",
   [⟨"simple-test-app.tar.gz", "https://example.org/simple-test-app.tar.gz"⟩]⟩

/-- A walk of the extraction tree that contains `install.sh` at the root. -/
def testWalkFound : List WalkEntry :=
  [("/tmp/simple-test-app-update", ["install.sh"])]

/-- A walk of the extraction tree with no `install.sh` anywhere. -/
def testWalkMissing : List WalkEntry :=
  [("/tmp/simple-test-app-update", ["README.md"])]

/-! Theorems, one per claim. -/

/-- C1: the claim says the updater's live data path equals the Record
Store's backing file `<home>/.simple-test-app/users.db`.  It does not:
`update_utils.get_db_path` builds `<app_dir>/data/users.db`, while
`main.py`'s Record Store uses `<home>/.simple-test-app/users.db` — shown
here at a concrete home and application directory.  The updater's own
docstrings ("Get the current database path", "Create a backup of user
data") make the intent plain, so the path mismatch is a slip in the
code: the backup/restore pair never touches the file the store reads
and writes. -/
theorem updater_db_path_differs :
    main_get_db_path "/home/user" ≠ get_db_path "/opt/simple-test-app" := by
  decide

/-- C2: when the located install script exits non-zero,
`update_application` aborts with the update error: the trace ends at the
failed install step, the backup file written by `backup_user_data` is still
present afterwards, no `restore` call occurs, and neither the completion
notification nor `sys.exit(0)` is reached. -/
theorem install_failure_no_restore :
    ∀ (env : UpdateEnv) (home appDir : String) (rel : ReleaseData) (fs : FS)
      (script c : String),
      env.exc.mkdirBackupRaises = false →
      env.exc.copyBackupRaises = false →
      fs.files (get_db_path appDir) = some c →
      (rel.assets.find? (fun a => pyEndsWith a.name ".tar.gz")).isSome →
      env.downloadRaises = false →
      env.tarExit = 0 →
      find_install_script env.walk = some script →
      env.installExit ≠ 0 →
      (update_application env home appDir rel fs).1 =
        [Event.infoDownloading, Event.runTar, Event.infoInstalling,
         Event.runInstall script, Event.errorUpdateFailed] ∧
      ((update_application env home appDir rel fs).2).files
        (DB_BACKUP_PATH home) = some c ∧
      (∀ b, Event.callRestore b ∉ (update_application env home appDir rel fs).1) ∧
      Event.infoComplete ∉ (update_application env home appDir rel fs).1 ∧
      Event.exitZero ∉ (update_application env home appDir rel fs).1 := by
  intro env home appDir rel fs script c h1 h2 h3 h4 h5 h6 h7 h8
  obtain ⟨a, ha⟩ := Option.isSome_iff_exists.mp h4
  have hb : backup_user_data env.exc home appDir fs =
      (true, fs.write (DB_BACKUP_PATH home) c) := by
    simp [backup_user_data, h1, h2, h3]
  have hu : update_application env home appDir rel fs =
      ([Event.infoDownloading, Event.runTar, Event.infoInstalling,
        Event.runInstall script, Event.errorUpdateFailed],
       fs.write (DB_BACKUP_PATH home) c) := by
    simp [update_application, hb, ha, h5, h6, h7, h8]
  refine ⟨by rw [hu], ?_, ?_, ?_, ?_⟩
  · rw [hu]
    simp [FS.write]
  · intro b
    rw [hu]
    simp
  · rw [hu]; simp
  · rw [hu]; simp

/-- Witness for C2 at a concrete environment: live file present, one
`.tar.gz` asset, `install.sh` found, install exit code 1. -/
theorem install_failure_no_restore_witness :
    (update_application ⟨ExcEnv.ok, false, 0, testWalkFound, 1⟩ testHome
        testAppDir testRel testFS).1 =
      [Event.infoDownloading, Event.runTar, Event.infoInstalling,
       Event.runInstall "/tmp/simple-test-app-update/install.sh",
       Event.errorUpdateFailed] ∧
    ((update_application ⟨ExcEnv.ok, false, 0, testWalkFound, 1⟩ testHome
        testAppDir testRel testFS).2).files (DB_BACKUP_PATH testHome) =
      some "DATA" ∧
    (∀ b, Event.callRestore b ∉
      (update_application ⟨ExcEnv.ok, false, 0, testWalkFound, 1⟩ testHome
        testAppDir testRel testFS).1) ∧
    Event.infoComplete ∉
      (update_application ⟨ExcEnv.ok, false, 0, testWalkFound, 1⟩ testHome
        testAppDir testRel testFS).1 ∧
    Event.exitZero ∉
      (update_application ⟨ExcEnv.ok, false, 0, testWalkFound, 1⟩ testHome
        testAppDir testRel testFS).1 :=
  install_failure_no_restore ⟨ExcEnv.ok, false, 0, testWalkFound, 1⟩ testHome
    testAppDir testRel testFS "/tmp/simple-test-app-update/install.sh" "DATA"
    rfl rfl (by simp [testFS]) (by decide) rfl rfl (by decide) (by decide)

/-- C3: `check_for_new_version` on HTTP 200 strips the leading `v` from
`tag_name` and offers an update exactly when the stripped tag is
non-empty and differs from the current version by plain string
inequality; the offered version is always the stripped tag.  At
`tag_name = "v1.0.1"` against current version `"1.0.0"` it yields
`"1.0.1"`; at `tag_name = "v1.0.0"` it yields nothing. -/
theorem check_for_update_spec :
    ∀ (tag : String) (assets : List Asset),
      ((check_for_new_version 200 ⟨some tag, assets⟩).isSome ↔
        (lstripV tag ≠ "" ∧ lstripV tag ≠ CURRENT_VERSION)) ∧
      (∀ v, check_for_new_version 200 ⟨some tag, assets⟩ = some v →
        v = lstripV tag) ∧
      CURRENT_VERSION = "1.0.0" ∧
      check_for_new_version 200 ⟨some "v1.0.1", []⟩ = some "1.0.1" ∧
      check_for_new_version 200 ⟨some "v1.0.0", []⟩ = none := by
  intro tag assets
  refine ⟨?_, ?_, by decide, by decide, by decide⟩
  · simp only [check_for_new_version, Option.getD]
    split
    · simp
    · simp_all
  · intro v h
    simp only [check_for_new_version, Option.getD] at h
    split at h
    · simp_all
    · simp_all

/-- C4: on a store with no row for username `u`, the first
`register_user` succeeds and leaves exactly one row for `u`; a second
`register_user` with the same username returns the duplicate-username
error (a constructor disjoint from the generic store error) and leaves
the store unchanged. -/
theorem register_duplicate_no_side_effects :
    ∀ (hash : String → String) (s : Store) (u p e q f : String),
      (∀ r ∈ s.users, r.username ≠ u) →
      (register_user hash s u p e).1 = RegResult.success ∧
      ((register_user hash s u p e).2.users.filter
          (fun r => r.username = u)).length = 1 ∧
      (register_user hash (register_user hash s u p e).2 u q f).1 =
        RegResult.duplicateUsername ∧
      (∀ m, (register_user hash (register_user hash s u p e).2 u q f).1 ≠
        RegResult.storeError m) ∧
      (register_user hash (register_user hash s u p e).2 u q f).2 =
        (register_user hash s u p e).2 := by
  intro hash s u p e q f h
  have hany : s.users.any (fun r => r.username = u) = false := by
    simp only [List.any_eq_false, decide_eq_true_eq]
    exact fun r hr => h r hr
  have hfilter : s.users.filter (fun r => r.username = u) = [] := by
    simp only [List.filter_eq_nil_iff, decide_eq_true_eq]
    exact fun r hr => h r hr
  simp [register_user, hany, hfilter]

/-- Witness for C4 on the fresh store with username `alice`. -/
theorem register_duplicate_witness :
    ((register_user id init_store "alice" "pw" "a@x").1 = RegResult.success ∧
      ((register_user id init_store "alice" "pw" "a@x").2.users.filter
          (fun r => r.username = "alice")).length = 1 ∧
      (register_user id (register_user id init_store "alice" "pw" "a@x").2
          "alice" "pw2" "b@x").1 = RegResult.duplicateUsername ∧
      (∀ m, (register_user id (register_user id init_store "alice" "pw" "a@x").2
          "alice" "pw2" "b@x").1 ≠ RegResult.storeError m) ∧
      (register_user id (register_user id init_store "alice" "pw" "a@x").2
          "alice" "pw2" "b@x").2 =
        (register_user id init_store "alice" "pw" "a@x").2) :=
  register_duplicate_no_side_effects id init_store "alice" "pw" "a@x" "pw2" "b@x"
    (by simp [init_store])

/-- C5: the claim says the UI's `APP_VERSION` literal equals the
updater's `CURRENT_VERSION` literal (single source of truth).  The
shipped literals are `"1.0.1"` (`main.py` line 18) and `"1.0.0"`
(`update_utils.py` line 13): they differ, although the comment next to
`CURRENT_VERSION` says it should match `main.py` — the code contradicts
its own documentation. -/
theorem version_constants_differ : APP_VERSION ≠ CURRENT_VERSION := by decide

/-- C6: `backup_user_data` with no live data file succeeds (`true`) and
changes nothing (in particular it creates no backup file), provided its
directory creation does not raise; `restore_user_data` with no backup
file succeeds and leaves the filesystem — hence the live file —
untouched; and an exception inside either function is reported as a
`false` return with the filesystem unchanged, never propagated. -/
theorem backup_restore_missing_file :
    ∀ (env : ExcEnv) (home appDir : String) (fs : FS),
      (env.mkdirBackupRaises = false →
        fs.files (get_db_path appDir) = none →
        backup_user_data env home appDir fs = (true, fs)) ∧
      (fs.files (DB_BACKUP_PATH home) = none →
        restore_user_data env home appDir fs = (true, fs)) ∧
      (env.mkdirBackupRaises = true →
        backup_user_data env home appDir fs = (false, fs)) ∧
      (env.copyRestoreRaises = true → env.mkdirRestoreRaises = false →
        (∃ c, fs.files (DB_BACKUP_PATH home) = some c) →
        restore_user_data env home appDir fs = (false, fs)) := by
  intro env home appDir fs
  refine ⟨?_, ?_, ?_, ?_⟩
  · intro h1 h2
    simp [backup_user_data, h1, h2]
  · intro h
    simp [restore_user_data, h]
  · intro h
    simp [backup_user_data, h]
  · intro h1 h2 h3
    obtain ⟨c, hc⟩ := h3
    simp [restore_user_data, h1, h2, hc]

/-- Witness for C6: the all-succeeding environment over the empty
filesystem, where both operations return `true` and change nothing. -/
theorem backup_restore_missing_file_witness :
    backup_user_data ExcEnv.ok testHome testAppDir emptyFS =
        (true, emptyFS) ∧
      restore_user_data ExcEnv.ok testHome testAppDir emptyFS =
        (true, emptyFS) :=
  ⟨(backup_restore_missing_file ExcEnv.ok testHome testAppDir emptyFS).1
      rfl rfl,
   (backup_restore_missing_file ExcEnv.ok testHome testAppDir emptyFS).2.1
      rfl⟩

/-- C7: for every content of the live data file, `backup_user_data`
followed by `restore_user_data` with no intervening mutation leaves the
live file with exactly its pre-backup content. -/
theorem backup_restore_roundtrip :
    ∀ (home appDir : String) (fs : FS) (c : String),
      fs.files (get_db_path appDir) = some c →
      ((restore_user_data ExcEnv.ok home appDir
          (backup_user_data ExcEnv.ok home appDir fs).2).2).files
        (get_db_path appDir) = some c := by
  intro home appDir fs c h
  simp [backup_user_data, restore_user_data, ExcEnv.ok, h, FS.write]

/-- Witness for C7 on a filesystem whose live file holds `"DATA"`. -/
theorem backup_restore_roundtrip_witness :
    ((restore_user_data ExcEnv.ok testHome testAppDir
        (backup_user_data ExcEnv.ok testHome testAppDir testFS).2).2).files
      (get_db_path testAppDir) = some "DATA" :=
  backup_restore_roundtrip testHome testAppDir testFS "DATA"
    (by simp [testFS])

/-- C8: after a successful backup, asset lookup, download and
extraction, a walk with no `install.sh` skips the install step with no
error — no install subprocess runs and the sequence still reaches the
restore call, the completion notification and `sys.exit(0)`; and when
the walk does find an `install.sh`, the script executed is exactly the
first one the walk found. -/
theorem missing_install_script_skips :
    ∀ (env : UpdateEnv) (home appDir : String) (rel : ReleaseData) (fs : FS),
      (backup_user_data env.exc home appDir fs).1 = true →
      (rel.assets.find? (fun a => pyEndsWith a.name ".tar.gz")).isSome →
      env.downloadRaises = false →
      env.tarExit = 0 →
      (find_install_script env.walk = none →
        (∀ p, Event.runInstall p ∉ (update_application env home appDir rel fs).1) ∧
        Event.errorUpdateFailed ∉ (update_application env home appDir rel fs).1 ∧
        Event.errorBackup ∉ (update_application env home appDir rel fs).1 ∧
        Event.errorNoPackage ∉ (update_application env home appDir rel fs).1 ∧
        (∃ b, Event.callRestore b ∈ (update_application env home appDir rel fs).1) ∧
        Event.infoComplete ∈ (update_application env home appDir rel fs).1 ∧
        Event.exitZero ∈ (update_application env home appDir rel fs).1) ∧
      (∀ p, find_install_script env.walk = some p →
        Event.runInstall p ∈ (update_application env home appDir rel fs).1 ∧
        (∀ q, Event.runInstall q ∈ (update_application env home appDir rel fs).1 →
          q = p)) := by
  intro env home appDir rel fs hb h4 h5 h6
  obtain ⟨a, ha⟩ := Option.isSome_iff_exists.mp h4
  obtain ⟨bk, fs1, hbk⟩ : ∃ bk fs1,
      backup_user_data env.exc home appDir fs = (bk, fs1) := ⟨_, _, rfl⟩
  rw [hbk] at hb
  subst hb
  constructor
  · intro hnone
    obtain ⟨rok, fs2, hre⟩ : ∃ rok fs2,
        restore_user_data env.exc home appDir fs1 = (rok, fs2) := ⟨_, _, rfl⟩
    have hu : update_application env home appDir rel fs =
        ([Event.infoDownloading, Event.runTar, Event.callRestore rok,
          Event.infoComplete, Event.exitZero], fs2) := by
      simp [update_application, hbk, ha, h5, h6, hnone, hre]
    rw [hu]
    refine ⟨fun p => by simp, by simp, by simp, by simp, ⟨rok, by simp⟩,
      by simp, by simp⟩
  · intro p hp
    by_cases hi : env.installExit = 0
    · obtain ⟨rok, fs2, hre⟩ : ∃ rok fs2,
          restore_user_data env.exc home appDir fs1 = (rok, fs2) := ⟨_, _, rfl⟩
      have hu : update_application env home appDir rel fs =
          ([Event.infoDownloading, Event.runTar, Event.infoInstalling,
            Event.runInstall p, Event.callRestore rok,
            Event.infoComplete, Event.exitZero], fs2) := by
        simp [update_application, hbk, ha, h5, h6, hp, hi, hre]
      rw [hu]
      refine ⟨by simp, ?_⟩
      intro q hq
      simp at hq
      rcases hq with h | h | h | h | h | h | h
      all_goals simp_all
    · have hu : update_application env home appDir rel fs =
          ([Event.infoDownloading, Event.runTar, Event.infoInstalling,
            Event.runInstall p, Event.errorUpdateFailed], fs1) := by
        simp [update_application, hbk, ha, h5, h6, hp, hi]
      rw [hu]
      refine ⟨by simp, ?_⟩
      intro q hq
      simp at hq
      rcases hq with h | h | h | h | h
      all_goals simp_all

/-- Witness for C8 at a concrete environment whose extraction tree has
no `install.sh`. -/
theorem missing_install_script_skips_witness :
    (find_install_script testWalkMissing = none →
      (∀ p, Event.runInstall p ∉
        (update_application ⟨ExcEnv.ok, false, 0, testWalkMissing, 0⟩ testHome
          testAppDir testRel testFS).1) ∧
      Event.errorUpdateFailed ∉
        (update_application ⟨ExcEnv.ok, false, 0, testWalkMissing, 0⟩ testHome
          testAppDir testRel testFS).1 ∧
      Event.errorBackup ∉
        (update_application ⟨ExcEnv.ok, false, 0, testWalkMissing, 0⟩ testHome
          testAppDir testRel testFS).1 ∧
      Event.errorNoPackage ∉
        (update_application ⟨ExcEnv.ok, false, 0, testWalkMissing, 0⟩ testHome
          testAppDir testRel testFS).1 ∧
      (∃ b, Event.callRestore b ∈
        (update_application ⟨ExcEnv.ok, false, 0, testWalkMissing, 0⟩ testHome
          testAppDir testRel testFS).1) ∧
      Event.infoComplete ∈
        (update_application ⟨ExcEnv.ok, false, 0, testWalkMissing, 0⟩ testHome
          testAppDir testRel testFS).1 ∧
      Event.exitZero ∈
        (update_application ⟨ExcEnv.ok, false, 0, testWalkMissing, 0⟩ testHome
          testAppDir testRel testFS).1) ∧
    (∀ p, find_install_script testWalkMissing = some p →
      Event.runInstall p ∈
        (update_application ⟨ExcEnv.ok, false, 0, testWalkMissing, 0⟩ testHome
          testAppDir testRel testFS).1 ∧
      (∀ q, Event.runInstall q ∈
        (update_application ⟨ExcEnv.ok, false, 0, testWalkMissing, 0⟩ testHome
          testAppDir testRel testFS).1 → q = p)) :=
  missing_install_script_skips ⟨ExcEnv.ok, false, 0, testWalkMissing, 0⟩
    testHome testAppDir testRel testFS
    (by simp [backup_user_data, testFS, ExcEnv.ok]) (by decide) rfl rfl

/-- C9: `get_users` on the fresh store returns the empty list; on every
store the returned triples are ordered newest first (descending
`created_at`); and registering `U1` then `U2` on a fresh store returns
`U2` before `U1`. -/
theorem list_users_newest_first :
    ∀ (hash : String → String) (s : Store),
      get_users init_store = [] ∧
      List.Pairwise (fun a b => b.2.2 ≤ a.2.2) (get_users s) ∧
      get_users (register_user hash
          (register_user hash init_store "U1" "p1" "e1").2 "U2" "p2" "e2").2 =
        [("U2", "e2", 1), ("U1", "e1", 0)] := by
  intro hash s
  refine ⟨by decide, ?_, ?_⟩
  · have hs : List.Sorted createdDesc (List.insertionSort createdDesc s.users) :=
      List.sorted_insertionSort createdDesc s.users
    exact hs.map _ (fun a b hab => hab)
  · simp [get_users, register_user, init_store, pyOr, createdDesc]

/-- C10: every triple `get_users` returns comes from a stored row, its
email position holds the row's email passed through `or ''`, and a row
whose email column is NULL or empty yields the empty string there — the
listing never exposes a null email. -/
theorem list_users_email_never_null :
    ∀ (s : Store) (t : String × String × Nat),
      t ∈ get_users s →
      ∃ r, r ∈ s.users ∧ t = (r.username, pyOr r.email, r.created_at) ∧
        ((r.email = none ∨ r.email = some "") → t.2.1 = "") := by
  intro s t ht
  simp only [get_users, List.mem_map] at ht
  obtain ⟨r, hr, hrt⟩ := ht
  refine ⟨r, ?_, hrt.symm, ?_⟩
  · exact (List.perm_insertionSort createdDesc s.users).mem_iff.mp hr
  · intro he
    subst hrt
    rcases he with h | h
    · simp [pyOr, h]
    · simp [pyOr, h]

/-- Witness for C10 on a store holding one row with a NULL email. -/
theorem list_users_email_never_null_witness :
    ∃ r, r ∈ (Store.mk [UserRow.mk 1 "bob" "h" none 0] 2 1).users ∧
      (("bob", "", 0) : String × String × Nat) =
        (r.username, pyOr r.email, r.created_at) ∧
      ((r.email = none ∨ r.email = some "") →
        ((("bob", "", 0) : String × String × Nat)).2.1 = "") :=
  list_users_email_never_null (Store.mk [UserRow.mk 1 "bob" "h" none 0] 2 1)
    ("bob", "", 0) (by decide)

end SimpleTestApp
